import Mathlib

/-!
Verification of the cudascope time-series storage engine.

This file is a shallow embedding of the storage engine:
SQLite tables become Lists of row records, SQL statements become Lean
functions over a Store record.  Timestamps are integer Unix seconds
(Int); SQL REAL columns are modelled as Rat; SQLite integer division
truncates toward zero, which is Int.tdiv.

Embedded source functions (names kept from the Go source):
WriteGPUMetrics, WriteHostMetrics, WriteGPUProcesses (writes.go),
rollupGPUTo1m, rollupGPUTo1h, rollupHostTo1m, rollupHostTo1h, prune,
doRetention (retention.go), selectResolution, selectHostResolution,
GetGPUMetrics, GetLatestGPUMetrics (query.go).
-/

/-- SQLite integer division: truncation toward zero. -/
def sqlDiv (a b : Int) : Int := Int.tdiv a b

/-- The SQL expression (ts / size) * size used to assign a row to a bucket. -/
def bucketOf (size ts : Int) : Int := sqlDiv ts size * size

/-- A row of gpu_metrics_raw.  The node_id column is nullable (it was added
by migration 003); reads coalesce NULL to the sentinel local. -/
structure GPURawRow where
  ts : Int
  node_id : Option String
  gpu_id : Int
  gpu_util : Rat
  mem_util : Rat
  mem_used : Int
  temperature : Int
  fan_speed : Int
  power_draw : Rat
  power_limit : Rat
  clock_gfx : Int
  clock_mem : Int
  pcie_tx : Int
  pcie_rx : Int
  pstate : Int
  encoder_util : Rat
  decoder_util : Rat
deriving DecidableEq

/-- A row of host_metrics_raw. -/
structure HostRawRow where
  ts : Int
  node_id : String
  cpu_percent : Rat
  mem_used : Int
  mem_total : Int
  disk_used : Int
  disk_total : Int
  net_rx : Int
  net_tx : Int
  load_1m : Rat
  load_5m : Rat
  load_15m : Rat
deriving DecidableEq

/-- A row of gpu_processes. -/
structure GPUProcessRow where
  ts : Int
  node_id : String
  gpu_id : Int
  pid : Int
  name : String
  gpu_mem : Int
deriving DecidableEq

/-- Aggregate columns of gpu_metrics_1m (everything after ts, node_id, gpu_id),
in the column order of the INSERT in rollupGPUTo1m. -/
structure GPUM1Agg where
  gpu_util_avg : Rat
  gpu_util_max : Rat
  mem_util_avg : Rat
  mem_used_avg : Rat
  mem_used_max : Int
  temperature_avg : Rat
  temperature_max : Int
  fan_speed_avg : Rat
  power_draw_avg : Rat
  power_draw_max : Rat
  clock_gfx_avg : Rat
  clock_mem_avg : Rat
  pcie_tx_avg : Rat
  pcie_rx_avg : Rat
deriving DecidableEq

/-- Aggregate columns of gpu_metrics_1h. -/
structure GPUH1Agg where
  gpu_util_avg : Rat
  gpu_util_max : Rat
  mem_util_avg : Rat
  mem_used_avg : Rat
  mem_used_max : Int
  temperature_avg : Rat
  temperature_max : Int
  power_draw_avg : Rat
  power_draw_max : Rat
deriving DecidableEq

/-- Aggregate columns of host_metrics_1m. -/
structure HostM1Agg where
  cpu_percent_avg : Rat
  cpu_percent_max : Rat
  mem_used_avg : Rat
  mem_used_max : Int
  mem_total : Int
  disk_used : Int
  disk_total : Int
  net_rx_avg : Rat
  net_tx_avg : Rat
  load_1m_avg : Rat
  load_1m_max : Rat
deriving DecidableEq

/-- Aggregate columns of host_metrics_1h. -/
structure HostH1Agg where
  cpu_percent_avg : Rat
  cpu_percent_max : Rat
  mem_used_avg : Rat
  mem_used_max : Int
  mem_total : Int
  load_1m_avg : Rat
  load_1m_max : Rat
deriving DecidableEq

/-- The database: one list per table.  Rollup rows are a group key
(ts bucket plus grouping columns) paired with the aggregate columns; the
rollup tables carry a unique index on exactly that key (migration 004). -/
@[ext]
structure Store where
  gpu_metrics_raw : List GPURawRow
  gpu_metrics_1m : List ((Int × String × Int) × GPUM1Agg)
  gpu_metrics_1h : List ((Int × String × Int) × GPUH1Agg)
  host_metrics_raw : List HostRawRow
  host_metrics_1m : List ((Int × String) × HostM1Agg)
  host_metrics_1h : List ((Int × String) × HostH1Agg)
  gpu_processes : List GPUProcessRow
deriving DecidableEq

/-- SQL SUM over rationals. -/
def listSumQ (l : List Rat) : Rat := l.foldr (· + ·) 0

/-- SQL SUM over integers. -/
def listSumI (l : List Int) : Int := l.foldr (· + ·) 0

/-- SQL AVG over a REAL column (groups are nonempty so the 0 default of the
empty case is never observable). -/
def ratAvg (l : List Rat) : Rat := listSumQ l / (l.length : Rat)

/-- SQL AVG over an INTEGER column. -/
def intAvg (l : List Int) : Rat := ((listSumI l : Int) : Rat) / (l.length : Rat)

/-- SQL MAX over a REAL column of a nonempty group. -/
def ratMax : List Rat → Rat
  | [] => 0
  | x :: xs => xs.foldl max x

/-- SQL MAX over an INTEGER column of a nonempty group. -/
def intMax : List Int → Int
  | [] => 0
  | x :: xs => xs.foldl max x

/-- COALESCE(MAX(ts), 0): the maximum of a list of timestamps, 0 when the
table is empty. -/
def maxOr0 : List Int → Int
  | [] => 0
  | x :: xs => xs.foldl max x

/-- The WHERE clause of every rollup INSERT ... SELECT:
ts greater than the high-water mark and at most now minus the settle window. -/
def srcSel {σ : Type} (getTs : σ → Int) (lo hi : Int) (source : List σ) : List σ :=
  source.filter (fun r => decide (lo < getTs r ∧ getTs r ≤ hi))

/-- The GROUP BY of a rollup INSERT ... SELECT: one output row per distinct
group key of the selected source rows, pairing the key with the aggregates
computed over the rows of that group. -/
def rollupRows {σ κ π : Type} [DecidableEq κ] (getTs : σ → Int) (getKey : σ → κ)
    (agg : κ → List σ → π) (lo hi : Int) (source : List σ) : List (κ × π) :=
  ((srcSel getTs lo hi source).map getKey).dedup.map
    (fun k => (k, agg k ((srcSel getTs lo hi source).filter (fun r => decide (getKey r = k)))))

/-- COALESCE(MAX(ts), 0) over a rollup table, reading ts out of the group key. -/
def hwm {κ π : Type} (target : List ((Int × κ) × π)) : Int :=
  maxOr0 (target.map (fun t => t.1.1))

/-- The INSERT of a rollup under the unique index of migration 004: SQLite
aborts the whole statement when any inserted key collides with an existing
row, leaving the table unchanged; otherwise all rows are appended. -/
def insertUnique {κ π : Type} [DecidableEq κ] (target : List (κ × π)) (newRows : List (κ × π)) :
    List (κ × π) :=
  if newRows.any (fun n => target.any (fun t => decide (t.1 = n.1))) then target
  else target ++ newRows

/-- One rollup pass (the shared shape of rollupGPUTo1m, rollupGPUTo1h,
rollupHostTo1m, rollupHostTo1h): read the high-water mark from the target
tier, select the settled source rows above it, group and aggregate them,
and insert the result under the unique index. -/
def genRollup {σ κ π : Type} [DecidableEq κ] (getTs : σ → Int) (getKey : σ → Int × κ)
    (agg : Int × κ → List σ → π) (beforeTs : Int) (source : List σ)
    (target : List ((Int × κ) × π)) : List ((Int × κ) × π) :=
  insertUnique target (rollupRows getTs getKey agg (hwm target) beforeTs source)

/-- Group key of the raw-to-1m GPU rollup:
((ts / 60) * 60, COALESCE(node_id, local), gpu_id). -/
def gpuRawKey (r : GPURawRow) : Int × String × Int :=
  (bucketOf 60 r.ts, r.node_id.getD "local", r.gpu_id)

/-- The SELECT aggregates of rollupGPUTo1m over one group of raw rows. -/
def gpuM1AggOf (_k : Int × String × Int) (rows : List GPURawRow) : GPUM1Agg :=
  { gpu_util_avg := ratAvg (rows.map (·.gpu_util))
    gpu_util_max := ratMax (rows.map (·.gpu_util))
    mem_util_avg := ratAvg (rows.map (·.mem_util))
    mem_used_avg := intAvg (rows.map (·.mem_used))
    mem_used_max := intMax (rows.map (·.mem_used))
    temperature_avg := intAvg (rows.map (·.temperature))
    temperature_max := intMax (rows.map (·.temperature))
    fan_speed_avg := intAvg (rows.map (·.fan_speed))
    power_draw_avg := ratAvg (rows.map (·.power_draw))
    power_draw_max := ratMax (rows.map (·.power_draw))
    clock_gfx_avg := intAvg (rows.map (·.clock_gfx))
    clock_mem_avg := intAvg (rows.map (·.clock_mem))
    pcie_tx_avg := intAvg (rows.map (·.pcie_tx))
    pcie_rx_avg := intAvg (rows.map (·.pcie_rx)) }

/-- rollupGPUTo1m: INSERT INTO gpu_metrics_1m ... SELECT ... FROM
gpu_metrics_raw WHERE ts > lastRolled AND ts <= beforeTs GROUP BY minute
bucket, node, gpu. -/
def rollupGPUTo1m (beforeTs : Int) (st : Store) : Store :=
  { st with gpu_metrics_1m :=
      genRollup (fun r => r.ts) gpuRawKey gpuM1AggOf beforeTs st.gpu_metrics_raw st.gpu_metrics_1m }

/-- Group key of the 1m-to-1h GPU rollup: ((ts / 3600) * 3600, node_id, gpu_id).
The node column of gpu_metrics_1m is always populated by the 1m rollup, so the
COALESCE in the source SQL is the identity here. -/
def gpuM1Key (row : (Int × String × Int) × GPUM1Agg) : Int × String × Int :=
  (bucketOf 3600 row.1.1, row.1.2.1, row.1.2.2)

/-- The SELECT aggregates of rollupGPUTo1h over one group of 1m rows. -/
def gpuH1AggOf (_k : Int × String × Int) (rows : List ((Int × String × Int) × GPUM1Agg)) :
    GPUH1Agg :=
  { gpu_util_avg := ratAvg (rows.map (·.2.gpu_util_avg))
    gpu_util_max := ratMax (rows.map (·.2.gpu_util_max))
    mem_util_avg := ratAvg (rows.map (·.2.mem_util_avg))
    mem_used_avg := ratAvg (rows.map (·.2.mem_used_avg))
    mem_used_max := intMax (rows.map (·.2.mem_used_max))
    temperature_avg := ratAvg (rows.map (·.2.temperature_avg))
    temperature_max := intMax (rows.map (·.2.temperature_max))
    power_draw_avg := ratAvg (rows.map (·.2.power_draw_avg))
    power_draw_max := ratMax (rows.map (·.2.power_draw_max)) }

/-- rollupGPUTo1h: folds gpu_metrics_1m into gpu_metrics_1h. -/
def rollupGPUTo1h (beforeTs : Int) (st : Store) : Store :=
  let t := genRollup (fun row => row.1.1) gpuM1Key gpuH1AggOf beforeTs st.gpu_metrics_1m st.gpu_metrics_1h
  { st with gpu_metrics_1h := t }

/-- Group key of the raw-to-1m host rollup: ((ts / 60) * 60, node_id),
with no COALESCE on the node column. -/
def hostRawKey (r : HostRawRow) : Int × String := (bucketOf 60 r.ts, r.node_id)

/-- The SELECT aggregates of rollupHostTo1m over one group of raw rows. -/
def hostM1AggOf (_k : Int × String) (rows : List HostRawRow) : HostM1Agg :=
  { cpu_percent_avg := ratAvg (rows.map (·.cpu_percent))
    cpu_percent_max := ratMax (rows.map (·.cpu_percent))
    mem_used_avg := intAvg (rows.map (·.mem_used))
    mem_used_max := intMax (rows.map (·.mem_used))
    mem_total := intMax (rows.map (·.mem_total))
    disk_used := intMax (rows.map (·.disk_used))
    disk_total := intMax (rows.map (·.disk_total))
    net_rx_avg := intAvg (rows.map (·.net_rx))
    net_tx_avg := intAvg (rows.map (·.net_tx))
    load_1m_avg := ratAvg (rows.map (·.load_1m))
    load_1m_max := ratMax (rows.map (·.load_1m)) }

/-- rollupHostTo1m: folds host_metrics_raw into host_metrics_1m. -/
def rollupHostTo1m (beforeTs : Int) (st : Store) : Store :=
  let t := genRollup (fun r => r.ts) hostRawKey hostM1AggOf beforeTs st.host_metrics_raw st.host_metrics_1m
  { st with host_metrics_1m := t }

/-- Group key of the 1m-to-1h host rollup. -/
def hostM1Key (row : (Int × String) × HostM1Agg) : Int × String :=
  (bucketOf 3600 row.1.1, row.1.2)

/-- The SELECT aggregates of rollupHostTo1h over one group of 1m rows. -/
def hostH1AggOf (_k : Int × String) (rows : List ((Int × String) × HostM1Agg)) : HostH1Agg :=
  { cpu_percent_avg := ratAvg (rows.map (·.2.cpu_percent_avg))
    cpu_percent_max := ratMax (rows.map (·.2.cpu_percent_max))
    mem_used_avg := ratAvg (rows.map (·.2.mem_used_avg))
    mem_used_max := intMax (rows.map (·.2.mem_used_max))
    mem_total := intMax (rows.map (·.2.mem_total))
    load_1m_avg := ratAvg (rows.map (·.2.load_1m_avg))
    load_1m_max := ratMax (rows.map (·.2.load_1m_max)) }

/-- rollupHostTo1h: folds host_metrics_1m into host_metrics_1h. -/
def rollupHostTo1h (beforeTs : Int) (st : Store) : Store :=
  let t := genRollup (fun row => row.1.1) hostM1Key hostH1AggOf beforeTs st.host_metrics_1m st.host_metrics_1h
  { st with host_metrics_1h := t }

/-- prune(table, beforeTs): DELETE FROM table WHERE ts < beforeTs, i.e. keep
exactly the rows whose ts is not below the cutoff. -/
def prune {ρ : Type} (tsOf : ρ → Int) (beforeTs : Int) (rows : List ρ) : List ρ :=
  rows.filter (fun r => decide (¬ tsOf r < beforeTs))

/-- Retention durations, in seconds (the Go config converts time.Duration
to seconds before use). -/
structure RetentionConfig where
  raw : Int
  m1 : Int
  h1 : Int

/-- The compaction half of doRetention: the four rollups in source order
(raw to 1m for GPU and host with a 120 s settle window, then 1m to 1h with
a 7200 s settle window). -/
def runCompactor (now : Int) (st : Store) : Store :=
  rollupHostTo1h (now - 7200)
    (rollupGPUTo1h (now - 7200)
      (rollupHostTo1m (now - 120)
        (rollupGPUTo1m (now - 120) st)))

/-- doRetention: one cycle of the background job: the four rollups followed
by pruning every tier on its own cutoff, with gpu_processes pruned on the
raw cutoff. -/
def doRetention (now : Int) (cfg : RetentionConfig) (st : Store) : Store :=
  let s := runCompactor now st
  { s with
    gpu_metrics_raw := prune (fun r => r.ts) (now - cfg.raw) s.gpu_metrics_raw
    gpu_metrics_1m := prune (fun row => row.1.1) (now - cfg.m1) s.gpu_metrics_1m
    gpu_metrics_1h := prune (fun row => row.1.1) (now - cfg.h1) s.gpu_metrics_1h
    host_metrics_raw := prune (fun r => r.ts) (now - cfg.raw) s.host_metrics_raw
    host_metrics_1m := prune (fun row => row.1.1) (now - cfg.m1) s.host_metrics_1m
    host_metrics_1h := prune (fun row => row.1.1) (now - cfg.h1) s.host_metrics_1h
    gpu_processes := prune (fun r => r.ts) (now - cfg.raw) s.gpu_processes }

/-! ### Generic facts about the rollup step -/

theorem self_le_foldl_max : ∀ (l : List Int) (a : Int), a ≤ l.foldl max a
  | [], a => le_refl a
  | x :: xs, a => le_trans (le_max_left a x) (self_le_foldl_max xs (max a x))

theorem foldl_max_append (xs ys : List Int) : ∀ a : Int, xs.foldl max a ≤ (xs ++ ys).foldl max a := by
  induction xs with
  | nil => intro a; simpa using self_le_foldl_max ys a
  | cons x xs ih => intro a; simpa using ih (max a x)

theorem maxOr0_append_of_ne_nil (l l' : List Int) (h : l ≠ []) : maxOr0 l ≤ maxOr0 (l ++ l') := by
  cases l with
  | nil => exact absurd rfl h
  | cons x xs => simpa [maxOr0] using foldl_max_append xs l' x

theorem head_le_maxOr0 (x : Int) (xs : List Int) : x ≤ maxOr0 (x :: xs) :=
  self_le_foldl_max xs x

theorem mem_srcSel {σ : Type} (getTs : σ → Int) (lo hi : Int) (source : List σ) (r : σ) :
    r ∈ srcSel getTs lo hi source ↔ r ∈ source ∧ lo < getTs r ∧ getTs r ≤ hi := by
  simp [srcSel, List.mem_filter]

theorem rollupRows_key_mem {σ κ π : Type} [DecidableEq κ] (getTs : σ → Int) (getKey : σ → κ)
    (agg : κ → List σ → π) (lo hi : Int) (source : List σ) (x : κ × π)
    (hx : x ∈ rollupRows getTs getKey agg lo hi source) :
    ∃ r, r ∈ srcSel getTs lo hi source ∧ getKey r = x.1 := by
  unfold rollupRows at hx
  obtain ⟨k, hk, hxe⟩ := List.mem_map.1 hx
  obtain ⟨r, hr, hrk⟩ := List.mem_map.1 (List.mem_dedup.1 hk)
  refine ⟨r, hr, ?_⟩
  rw [hrk, ← hxe]

theorem rollupRows_mem_of_key {σ κ π : Type} [DecidableEq κ] (getTs : σ → Int) (getKey : σ → κ)
    (agg : κ → List σ → π) (lo hi : Int) (source : List σ) (k : κ)
    (hk : k ∈ ((srcSel getTs lo hi source).map getKey).dedup) :
    (k, agg k ((srcSel getTs lo hi source).filter (fun r => decide (getKey r = k))))
      ∈ rollupRows getTs getKey agg lo hi source := by
  unfold rollupRows
  exact List.mem_map.2 ⟨k, hk, rfl⟩

theorem genRollup_idem {σ κ π : Type} [DecidableEq κ] (getTs : σ → Int)
    (getKey : σ → Int × κ) (agg : Int × κ → List σ → π)
    (hpos : ∀ s, 0 < getTs s → 0 ≤ (getKey s).1)
    (b : Int) (source : List σ) (target : List ((Int × κ) × π)) :
    genRollup getTs getKey agg b source (genRollup getTs getKey agg b source target)
      = genRollup getTs getKey agg b source target := by
  rcases hnil : rollupRows getTs getKey agg (hwm target) b source with _ | ⟨n, rest⟩
  · have ht1 : genRollup getTs getKey agg b source target = target := by
      unfold genRollup insertUnique
      rw [hnil]
      simp
    rw [ht1]
    exact ht1
  · by_cases hc1 : ((n :: rest).any (fun x => target.any (fun t => decide (t.1 = x.1))) = true)
    · have ht1 : genRollup getTs getKey agg b source target = target := by
        unfold genRollup insertUnique
        rw [hnil, if_pos hc1]
      rw [ht1]
      exact ht1
    · have ht1 : genRollup getTs getKey agg b source target = target ++ (n :: rest) := by
        unfold genRollup insertUnique
        rw [hnil, if_neg hc1]
      rw [ht1]
      have hw_le : hwm target ≤ hwm (target ++ n :: rest) := by
        unfold hwm
        rw [List.map_append]
        cases target with
        | nil =>
          simp only [List.map_nil, List.nil_append, List.map_cons]
          have hmem : n ∈ rollupRows getTs getKey agg (hwm ([] : List ((Int × κ) × π))) b source := by
            rw [hnil]
            exact List.mem_cons_self _ _
          obtain ⟨r, hr, hkr⟩ := rollupRows_key_mem _ _ _ _ _ _ _ hmem
          have hts : (0 : Int) < getTs r := ((mem_srcSel _ _ _ _ _).1 hr).2.1
          have hn0 : (0 : Int) ≤ n.1.1 := by
            rw [← hkr]
            exact hpos r hts
          calc maxOr0 ([] : List Int) = 0 := rfl
            _ ≤ n.1.1 := hn0
            _ ≤ maxOr0 (n.1.1 :: List.map (fun t => t.1.1) rest) := head_le_maxOr0 _ _
        | cons t ts => exact maxOr0_append_of_ne_nil _ _ (by simp)
      rcases h2 : rollupRows getTs getKey agg (hwm (target ++ n :: rest)) b source with _ | ⟨m, ms⟩
      · unfold genRollup insertUnique
        rw [h2]
        simp
      · have hm : m ∈ rollupRows getTs getKey agg (hwm (target ++ n :: rest)) b source := by
          rw [h2]
          exact List.mem_cons_self _ _
        obtain ⟨r, hr2, hkr⟩ := rollupRows_key_mem _ _ _ _ _ _ _ hm
        obtain ⟨hrs, hlo, hhi⟩ := (mem_srcSel _ _ _ _ _).1 hr2
        have hr1 : r ∈ srcSel getTs (hwm target) b source :=
          (mem_srcSel _ _ _ _ _).2 ⟨hrs, lt_of_le_of_lt hw_le hlo, hhi⟩
        have hk1 : m.1 ∈ ((srcSel getTs (hwm target) b source).map getKey).dedup :=
          List.mem_dedup.2 (List.mem_map.2 ⟨r, hr1, hkr⟩)
        have hrow := rollupRows_mem_of_key getTs getKey agg (hwm target) b source m.1 hk1
        have hcond : (m :: ms).any
            (fun x => (target ++ n :: rest).any (fun t => decide (t.1 = x.1))) = true := by
          rw [List.any_eq_true]
          refine ⟨m, List.mem_cons_self _ _, ?_⟩
          rw [List.any_eq_true]
          refine ⟨(m.1, agg m.1 ((srcSel getTs (hwm target) b source).filter
            (fun r => decide (getKey r = m.1)))), ?_, by simp⟩
          exact List.mem_append_right _ (hnil ▸ hrow)
        unfold genRollup insertUnique
        rw [h2, if_pos hcond]

theorem bucketOf_nonneg (size ts : Int) (hs : 0 ≤ size) (ht : 0 ≤ ts) : 0 ≤ bucketOf size ts :=
  mul_nonneg (Int.tdiv_nonneg ht hs) hs

theorem gpuRawKey_pos (r : GPURawRow) (h : 0 < r.ts) : 0 ≤ (gpuRawKey r).1 :=
  bucketOf_nonneg 60 r.ts (by norm_num) (le_of_lt h)

theorem gpuM1Key_pos (row : (Int × String × Int) × GPUM1Agg) (h : 0 < row.1.1) :
    0 ≤ (gpuM1Key row).1 :=
  bucketOf_nonneg 3600 row.1.1 (by norm_num) (le_of_lt h)

theorem hostRawKey_pos (r : HostRawRow) (h : 0 < r.ts) : 0 ≤ (hostRawKey r).1 :=
  bucketOf_nonneg 60 r.ts (by norm_num) (le_of_lt h)

theorem hostM1Key_pos (row : (Int × String) × HostM1Agg) (h : 0 < row.1.1) :
    0 ≤ (hostM1Key row).1 :=
  bucketOf_nonneg 3600 row.1.1 (by norm_num) (le_of_lt h)

theorem runCompactor_gpuraw (now : Int) (st : Store) :
    (runCompactor now st).gpu_metrics_raw = st.gpu_metrics_raw := rfl

theorem runCompactor_hostraw (now : Int) (st : Store) :
    (runCompactor now st).host_metrics_raw = st.host_metrics_raw := rfl

theorem runCompactor_procs (now : Int) (st : Store) :
    (runCompactor now st).gpu_processes = st.gpu_processes := rfl

theorem runCompactor_gpu1m (now : Int) (st : Store) :
    (runCompactor now st).gpu_metrics_1m
      = genRollup (fun r => r.ts) gpuRawKey gpuM1AggOf (now - 120) st.gpu_metrics_raw
          st.gpu_metrics_1m := rfl

theorem runCompactor_gpu1h (now : Int) (st : Store) :
    (runCompactor now st).gpu_metrics_1h
      = genRollup (fun row => row.1.1) gpuM1Key gpuH1AggOf (now - 7200)
          (runCompactor now st).gpu_metrics_1m st.gpu_metrics_1h := rfl

theorem runCompactor_host1m (now : Int) (st : Store) :
    (runCompactor now st).host_metrics_1m
      = genRollup (fun r => r.ts) hostRawKey hostM1AggOf (now - 120) st.host_metrics_raw
          st.host_metrics_1m := rfl

theorem runCompactor_host1h (now : Int) (st : Store) :
    (runCompactor now st).host_metrics_1h
      = genRollup (fun row => row.1.1) hostM1Key hostH1AggOf (now - 7200)
          (runCompactor now st).host_metrics_1m st.host_metrics_1h := rfl

theorem compactor_gpu1m_idem (now : Int) (st : Store) :
    (runCompactor now (runCompactor now st)).gpu_metrics_1m
      = (runCompactor now st).gpu_metrics_1m := by
  rw [runCompactor_gpu1m now (runCompactor now st), runCompactor_gpuraw,
    runCompactor_gpu1m now st]
  exact genRollup_idem _ _ _ gpuRawKey_pos _ _ _

theorem compactor_host1m_idem (now : Int) (st : Store) :
    (runCompactor now (runCompactor now st)).host_metrics_1m
      = (runCompactor now st).host_metrics_1m := by
  rw [runCompactor_host1m now (runCompactor now st), runCompactor_hostraw,
    runCompactor_host1m now st]
  exact genRollup_idem _ _ _ hostRawKey_pos _ _ _

theorem compactor_gpu1h_idem (now : Int) (st : Store) :
    (runCompactor now (runCompactor now st)).gpu_metrics_1h
      = (runCompactor now st).gpu_metrics_1h := by
  rw [runCompactor_gpu1h now (runCompactor now st), compactor_gpu1m_idem,
    runCompactor_gpu1h now st]
  exact genRollup_idem _ _ _ gpuM1Key_pos _ _ _

theorem compactor_host1h_idem (now : Int) (st : Store) :
    (runCompactor now (runCompactor now st)).host_metrics_1h
      = (runCompactor now st).host_metrics_1h := by
  rw [runCompactor_host1h now (runCompactor now st), compactor_host1m_idem,
    runCompactor_host1h now st]
  exact genRollup_idem _ _ _ hostM1Key_pos _ _ _

/-- C1 (amended): running the compactor a second time at the same clock
reading, with no raw writes in between, changes nothing: no new rows enter
any rollup table. -/
theorem runCompactor_idem (now : Int) (st : Store) :
    runCompactor now (runCompactor now st) = runCompactor now st := by
  apply Store.ext
  · exact runCompactor_gpuraw now (runCompactor now st)
  · exact compactor_gpu1m_idem now st
  · exact compactor_gpu1h_idem now st
  · exact runCompactor_hostraw now (runCompactor now st)
  · exact compactor_host1m_idem now st
  · exact compactor_host1h_idem now st
  · exact runCompactor_procs now (runCompactor now st)

/-- A raw GPU sample on node local, gpu 0, with a given timestamp and
temperature (the other fields are arbitrary fixed values). -/
def demoRaw (ts temp : Int) : GPURawRow :=
  { ts := ts, node_id := some "local", gpu_id := 0, gpu_util := 50, mem_util := 40
    mem_used := 1000, temperature := temp, fan_speed := 30, power_draw := 100
    power_limit := 200, clock_gfx := 1500, clock_mem := 7000, pcie_tx := 10
    pcie_rx := 20, pstate := 0, encoder_util := 0, decoder_util := 0 }

/-- The empty database. -/
def emptyStore : Store :=
  { gpu_metrics_raw := [], gpu_metrics_1m := [], gpu_metrics_1h := []
    host_metrics_raw := [], host_metrics_1m := [], host_metrics_1h := []
    gpu_processes := [] }

/-- Raw samples at ts 300 and ts 304, both inside minute bucket 300. -/
def c1Store : Store := { emptyStore with gpu_metrics_raw := [demoRaw 300 60, demoRaw 304 70] }

/-- C1 counterexample: after one compactor run at now = 425 over c1Store the
1m high-water mark is 300, yet the source selection of a second run
(ts greater than the high-water mark, ts at most now - 120) still contains the
raw row at ts 304, whose bucket 300 is already rolled: the selection does
re-include an already-rolled bucket. -/
theorem secondRun_reincludes_rolled_bucket :
    demoRaw 304 70 ∈ srcSel (fun r => r.ts) (hwm (runCompactor 425 c1Store).gpu_metrics_1m)
        (425 - 120) (runCompactor 425 c1Store).gpu_metrics_raw
    ∧ gpuRawKey (demoRaw 304 70)
        ∈ (runCompactor 425 c1Store).gpu_metrics_1m.map (fun row => row.1) := by
  decide

/-- Raw samples at ts 300 and ts 310: bucket 300 straddles the settle cutoff
of a compactor run at now = 425 (cutoff 305). -/
def c2Store : Store := { emptyStore with gpu_metrics_raw := [demoRaw 300 60, demoRaw 310 100] }

/-- C2 failing input: a compactor run at now = 425 over c2Store persists a
1m row for bucket 300 aggregating only the ts 300 sample (temperature
max 60, not the full-bucket max 100), while the raw tier still holds
the ts 310 sample of the same bucket, newer than now - 120. -/
theorem rollup_persists_partial_bucket :
    (runCompactor 425 c2Store).gpu_metrics_1m.map (fun row => (row.1.1, row.2.temperature_max))
        = [(300, 60)]
    ∧ demoRaw 310 100 ∈ c2Store.gpu_metrics_raw
    ∧ bucketOf 60 (demoRaw 310 100).ts = 300
    ∧ 425 - 120 < (demoRaw 310 100).ts := by
  decide

/-- C10: a retention cycle leaves in gpu_processes exactly the snapshot rows
whose ts is not older than now minus the raw retention: process snapshots
expire on the cutoff of the raw tier. -/
theorem doRetention_gpu_processes (now : Int) (cfg : RetentionConfig) (st : Store) :
    (doRetention now cfg st).gpu_processes
      = st.gpu_processes.filter (fun p => decide (now - cfg.raw ≤ p.ts)) := by
  show prune (fun r => r.ts) (now - cfg.raw) st.gpu_processes
      = st.gpu_processes.filter (fun p => decide (now - cfg.raw ≤ p.ts))
  unfold prune
  apply List.filter_congr
  intro x _
  exact decide_eq_decide.2 not_lt

/-! ### Query router and latest views -/

/-- The collector GPUMetrics record: the shape of ingested samples and of
query results (rows are scanned back into this struct). -/
structure GPUMetrics where
  ts : Int
  node_id : String
  gpu_id : Int
  gpu_util : Rat
  mem_util : Rat
  mem_used : Int
  temperature : Int
  fan_speed : Int
  power_draw : Rat
  power_limit : Rat
  clock_gfx : Int
  clock_mem : Int
  pcie_tx : Int
  pcie_rx : Int
  pstate : Int
  encoder_util : Rat
  decoder_util : Rat
deriving DecidableEq

/-- GPUMetricsQuery: device, optional node (empty string means all nodes),
and an inclusive time range. -/
structure GPUMetricsQuery where
  gpu_id : Int
  node_id : String
  fromTs : Int
  toTs : Int

/-- selectResolution picks the GPU table from the time span. -/
def selectResolution (spanSec : Int) : String :=
  if spanSec ≤ 3600 then "gpu_metrics_raw"
  else if spanSec ≤ 86400 then "gpu_metrics_1m"
  else "gpu_metrics_1h"

/-- selectHostResolution picks the host table from the time span. -/
def selectHostResolution (spanSec : Int) : String :=
  if spanSec ≤ 3600 then "host_metrics_raw"
  else if spanSec ≤ 86400 then "host_metrics_1m"
  else "host_metrics_1h"

/-- SQLite REAL-to-INTEGER conversion when a rollup average is scanned into
an integer field: truncation toward zero. -/
def ratTrunc (q : Rat) : Int := Int.tdiv q.num (q.den : Int)

/-- Scan of one raw row (the raw branch of the SELECT column list, with
COALESCE on node_id). -/
def rawRowToMetrics (r : GPURawRow) : GPUMetrics :=
  { ts := r.ts, node_id := r.node_id.getD "local", gpu_id := r.gpu_id
    gpu_util := r.gpu_util, mem_util := r.mem_util, mem_used := r.mem_used
    temperature := r.temperature, fan_speed := r.fan_speed, power_draw := r.power_draw
    power_limit := r.power_limit, clock_gfx := r.clock_gfx, clock_mem := r.clock_mem
    pcie_tx := r.pcie_tx, pcie_rx := r.pcie_rx, pstate := r.pstate
    encoder_util := r.encoder_util, decoder_util := r.decoder_util }

/-- Scan of one 1m rollup row into the GPUMetrics shape (averages for the
carried fields, literal 0 for power_limit, pstate, encoder and decoder). -/
def m1RowToMetrics (row : (Int × String × Int) × GPUM1Agg) : GPUMetrics :=
  { ts := row.1.1, node_id := row.1.2.1, gpu_id := row.1.2.2
    gpu_util := row.2.gpu_util_avg, mem_util := row.2.mem_util_avg
    mem_used := ratTrunc row.2.mem_used_avg, temperature := ratTrunc row.2.temperature_avg
    fan_speed := ratTrunc row.2.fan_speed_avg, power_draw := row.2.power_draw_avg
    power_limit := 0, clock_gfx := ratTrunc row.2.clock_gfx_avg
    clock_mem := ratTrunc row.2.clock_mem_avg, pcie_tx := ratTrunc row.2.pcie_tx_avg
    pcie_rx := ratTrunc row.2.pcie_rx_avg, pstate := 0, encoder_util := 0, decoder_util := 0 }

/-- Scan of one 1h rollup row into the GPUMetrics shape. -/
def h1RowToMetrics (row : (Int × String × Int) × GPUH1Agg) : GPUMetrics :=
  { ts := row.1.1, node_id := row.1.2.1, gpu_id := row.1.2.2
    gpu_util := row.2.gpu_util_avg, mem_util := row.2.mem_util_avg
    mem_used := ratTrunc row.2.mem_used_avg, temperature := ratTrunc row.2.temperature_avg
    fan_speed := 0, power_draw := row.2.power_draw_avg, power_limit := 0
    clock_gfx := 0, clock_mem := 0, pcie_tx := 0, pcie_rx := 0, pstate := 0
    encoder_util := 0, decoder_util := 0 }

/-- ORDER BY ts on raw rows. -/
def tsLe (a b : GPURawRow) : Prop := a.ts ≤ b.ts

instance : DecidableRel tsLe := fun a b => inferInstanceAs (Decidable (a.ts ≤ b.ts))

instance : IsTotal GPURawRow tsLe := ⟨fun a b => le_total a.ts b.ts⟩

instance : IsTrans GPURawRow tsLe := ⟨fun _ _ _ h h2 => le_trans h h2⟩

/-- ORDER BY ts on 1m rollup rows. -/
def tsLeM1 (a b : (Int × String × Int) × GPUM1Agg) : Prop := a.1.1 ≤ b.1.1

instance : DecidableRel tsLeM1 := fun a b => inferInstanceAs (Decidable (a.1.1 ≤ b.1.1))

/-- ORDER BY ts on 1h rollup rows. -/
def tsLeH1 (a b : (Int × String × Int) × GPUH1Agg) : Prop := a.1.1 ≤ b.1.1

instance : DecidableRel tsLeH1 := fun a b => inferInstanceAs (Decidable (a.1.1 ≤ b.1.1))

/-- GetGPUMetrics: pick the table by span via selectResolution, filter on
optional node, device and the inclusive time range, ORDER BY ts, and scan
the rows into GPUMetrics. -/
def GetGPUMetrics (q : GPUMetricsQuery) (st : Store) : List GPUMetrics :=
  if selectResolution (q.toTs - q.fromTs) = "gpu_metrics_raw" then
    (List.insertionSort tsLe (st.gpu_metrics_raw.filter (fun r =>
      decide ((q.node_id = "" ∨ r.node_id = some q.node_id) ∧ r.gpu_id = q.gpu_id
        ∧ q.fromTs ≤ r.ts ∧ r.ts ≤ q.toTs)))).map rawRowToMetrics
  else if selectResolution (q.toTs - q.fromTs) = "gpu_metrics_1m" then
    (List.insertionSort tsLeM1 (st.gpu_metrics_1m.filter (fun row =>
      decide ((q.node_id = "" ∨ row.1.2.1 = q.node_id) ∧ row.1.2.2 = q.gpu_id
        ∧ q.fromTs ≤ row.1.1 ∧ row.1.1 ≤ q.toTs)))).map m1RowToMetrics
  else
    (List.insertionSort tsLeH1 (st.gpu_metrics_1h.filter (fun row =>
      decide ((q.node_id = "" ∨ row.1.2.1 = q.node_id) ∧ row.1.2.2 = q.gpu_id
        ∧ q.fromTs ≤ row.1.1 ∧ row.1.1 ≤ q.toTs)))).map h1RowToMetrics

/-- C3: resolution selection in the GPU and host query paths is a pure
function of the span: spans up to 3600 s read raw, spans up to 86400 s read
the 1m rollup, wider spans read the 1h rollup; in particular the spans
900, 3600, 3601, 86400, 86401 select raw, raw, 1m, 1m, 1h. -/
theorem selectResolution_pure_router :
    (∀ span : Int,
      (span ≤ 3600 → selectResolution span = "gpu_metrics_raw"
        ∧ selectHostResolution span = "host_metrics_raw")
      ∧ (3600 < span → span ≤ 86400 → selectResolution span = "gpu_metrics_1m"
        ∧ selectHostResolution span = "host_metrics_1m")
      ∧ (86400 < span → selectResolution span = "gpu_metrics_1h"
        ∧ selectHostResolution span = "host_metrics_1h"))
    ∧ selectResolution 900 = "gpu_metrics_raw"
    ∧ selectResolution 3600 = "gpu_metrics_raw"
    ∧ selectResolution 3601 = "gpu_metrics_1m"
    ∧ selectResolution 86400 = "gpu_metrics_1m"
    ∧ selectResolution 86401 = "gpu_metrics_1h"
    ∧ selectHostResolution 900 = "host_metrics_raw"
    ∧ selectHostResolution 3600 = "host_metrics_raw"
    ∧ selectHostResolution 3601 = "host_metrics_1m"
    ∧ selectHostResolution 86400 = "host_metrics_1m"
    ∧ selectHostResolution 86401 = "host_metrics_1h" := by
  refine ⟨fun span => ⟨?_, ?_, ?_⟩, ?_, ?_, ?_, ?_, ?_, ?_, ?_, ?_, ?_, ?_⟩
  · intro h
    unfold selectResolution selectHostResolution
    rw [if_pos h, if_pos h]
    exact ⟨rfl, rfl⟩
  · intro h1 h2
    unfold selectResolution selectHostResolution
    rw [if_neg (not_le.2 h1), if_pos h2, if_neg (not_le.2 h1), if_pos h2]
    exact ⟨rfl, rfl⟩
  · intro h
    have ha : ¬ span ≤ 3600 := not_le.2 (lt_trans (by norm_num) h)
    have hb : ¬ span ≤ 86400 := not_le.2 h
    unfold selectResolution selectHostResolution
    rw [if_neg ha, if_neg hb, if_neg ha, if_neg hb]
    exact ⟨rfl, rfl⟩
  all_goals decide

/-- Witness for C3 at span 900. -/
theorem selectResolution_pure_router_witness :
    selectResolution 900 = "gpu_metrics_raw" ∧ selectHostResolution 900 = "host_metrics_raw" :=
  (selectResolution_pure_router.1 900).1 (by decide)

/-- Ordering of the final ORDER BY node_id, gpu_id of the latest view. -/
def nodeKeyLeB (a b : String × Int) : Bool :=
  match compare a.1 b.1 with
  | Ordering.lt => true
  | Ordering.eq => decide (a.2 ≤ b.2)
  | Ordering.gt => false

/-- The ORDER BY node_id, gpu_id relation as a Prop. -/
def nodeKeyLe (a b : String × Int) : Prop := nodeKeyLeB a b = true

instance : DecidableRel nodeKeyLe := fun a b => inferInstanceAs (Decidable (nodeKeyLeB a b = true))

/-- The PARTITION BY columns of the latest-GPU window:
(COALESCE(node_id, local), gpu_id). -/
def latestKey (r : GPURawRow) : String × Int := (r.node_id.getD "local", r.gpu_id)

/-- The row kept by ROW_NUMBER() OVER (... ORDER BY ts DESC) = 1: a row of
maximal ts within the partition. -/
def pickBest (best x : GPURawRow) : GPURawRow := if best.ts < x.ts then x else best

/-- Rank-1 row of a partition (none for an empty partition). -/
def pickLatest : List GPURawRow → Option GPURawRow
  | [] => none
  | r :: rs => some (rs.foldl pickBest r)

/-- The WHERE ts >= cutoff filter of the latest-GPU CTE, applied before
ranking. -/
def freshGPU (now : Int) (st : Store) : List GPURawRow :=
  st.gpu_metrics_raw.filter (fun r => decide (now - 30 ≤ r.ts))

/-- GetLatestGPUMetrics: filter the raw tier to the 30 s freshness window,
partition by (node, gpu), keep the rank-1 (max ts) row per partition, and
return the rows ordered by node and gpu. -/
def GetLatestGPUMetrics (now : Int) (st : Store) : List GPUMetrics :=
  ((List.insertionSort nodeKeyLe ((freshGPU now st).map latestKey).dedup).filterMap
    (fun k => pickLatest ((freshGPU now st).filter (fun r => decide (latestKey r = k))))).map
    rawRowToMetrics

theorem foldl_pickBest_mem (rs : List GPURawRow) (a : GPURawRow) :
    rs.foldl pickBest a = a ∨ rs.foldl pickBest a ∈ rs := by
  induction rs generalizing a with
  | nil => left; rfl
  | cons x xs ih =>
    rw [List.foldl_cons]
    rcases ih (pickBest a x) with h | h
    · rw [h]
      unfold pickBest
      by_cases hc : a.ts < x.ts
      · right
        rw [if_pos hc]
        exact List.mem_cons_self _ _
      · left
        rw [if_neg hc]
    · right
      exact List.mem_cons_of_mem _ h

theorem ts_le_foldl_pickBest (rs : List GPURawRow) (a : GPURawRow) :
    a.ts ≤ (rs.foldl pickBest a).ts ∧ ∀ x ∈ rs, x.ts ≤ (rs.foldl pickBest a).ts := by
  induction rs generalizing a with
  | nil =>
    refine ⟨le_refl _, ?_⟩
    intro x hx
    cases hx
  | cons y ys ih =>
    obtain ⟨h1, h2⟩ := ih (pickBest a y)
    rw [List.foldl_cons]
    constructor
    · refine le_trans ?_ h1
      unfold pickBest
      by_cases hc : a.ts < y.ts
      · rw [if_pos hc]
        exact le_of_lt hc
      · rw [if_neg hc]
    · intro x hx
      rcases List.mem_cons.1 hx with rfl | hx'
      · refine le_trans ?_ h1
        unfold pickBest
        by_cases hc : a.ts < x.ts
        · rw [if_pos hc]
        · rw [if_neg hc]
          exact not_lt.1 hc
      · exact h2 x hx'

theorem pickLatest_spec (l : List GPURawRow) (r : GPURawRow) (h : pickLatest l = some r) :
    r ∈ l ∧ ∀ x ∈ l, x.ts ≤ r.ts := by
  cases l with
  | nil => cases h
  | cons a as =>
    have hr : as.foldl pickBest a = r := by
      have hh : some (as.foldl pickBest a) = some r := h
      exact Option.some.inj hh
    constructor
    · rcases foldl_pickBest_mem as a with h' | h'
      · rw [← hr, h']
        exact List.mem_cons_self _ _
      · rw [← hr]
        exact List.mem_cons_of_mem _ h'
    · intro x hx
      obtain ⟨h1, h2⟩ := ts_le_foldl_pickBest as a
      rcases List.mem_cons.1 hx with rfl | hx'
      · rw [← hr]
        exact h1
      · rw [← hr]
        exact h2 x hx'

theorem pickLatest_isSome_of_mem {l : List GPURawRow} {x : GPURawRow} (h : x ∈ l) :
    ∃ r, pickLatest l = some r := by
  cases l with
  | nil => cases h
  | cons a as => exact ⟨as.foldl pickBest a, rfl⟩

/-- GPU samples for node local, gpu 0 at ts 0 and ts 40. -/
def latestDemoStore : Store :=
  { emptyStore with gpu_metrics_raw := [demoRaw 0 60, demoRaw 40 70] }

/-- C4: the latest-GPU view returns, per (node, gpu) partition, only rows of
the raw tier that lie in the freshness window and are of maximal ts among
the fresh rows of their partition, and every partition owning a fresh row is
represented; on the demo store (samples at ts 0 and ts 40) the view at
now = 40 is exactly the ts 40 sample and at now = 75 it is empty. -/
theorem GetLatestGPUMetrics_freshness :
    (∀ now st m, m ∈ GetLatestGPUMetrics now st →
      ∃ r, r ∈ st.gpu_metrics_raw ∧ m = rawRowToMetrics r ∧ now - 30 ≤ r.ts ∧
        ∀ x ∈ st.gpu_metrics_raw, now - 30 ≤ x.ts → latestKey x = latestKey r → x.ts ≤ r.ts)
    ∧ (∀ now st r, r ∈ st.gpu_metrics_raw → now - 30 ≤ r.ts →
      ∃ m, m ∈ GetLatestGPUMetrics now st ∧ (m.node_id, m.gpu_id) = latestKey r)
    ∧ GetLatestGPUMetrics 40 latestDemoStore = [rawRowToMetrics (demoRaw 40 70)]
    ∧ GetLatestGPUMetrics 75 latestDemoStore = [] := by
  refine ⟨?_, ?_, by decide, by decide⟩
  · intro now st m hm
    obtain ⟨r0, hr0, hmr⟩ := List.mem_map.1 hm
    obtain ⟨k, _, hpick⟩ := List.mem_filterMap.1 hr0
    obtain ⟨hrmem, hmax⟩ := pickLatest_spec _ _ hpick
    have h1 := List.mem_filter.1 hrmem
    have hkey : latestKey r0 = k := by simpa using h1.2
    have h2 := List.mem_filter.1 h1.1
    refine ⟨r0, h2.1, hmr.symm, by simpa using h2.2, ?_⟩
    intro x hx hxf hxk
    have hxfresh : x ∈ freshGPU now st := List.mem_filter.2 ⟨hx, by simpa using hxf⟩
    have hxsel : x ∈ (freshGPU now st).filter (fun r => decide (latestKey r = k)) := by
      refine List.mem_filter.2 ⟨hxfresh, ?_⟩
      simpa using hxk.trans hkey
    exact hmax x hxsel
  · intro now st r hr hfresh
    have hrf : r ∈ freshGPU now st := List.mem_filter.2 ⟨hr, by simpa using hfresh⟩
    have hkmem : latestKey r ∈ ((freshGPU now st).map latestKey).dedup :=
      List.mem_dedup.2 (List.mem_map_of_mem _ hrf)
    have hksort : latestKey r
        ∈ List.insertionSort nodeKeyLe ((freshGPU now st).map latestKey).dedup :=
      (List.perm_insertionSort nodeKeyLe _).mem_iff.2 hkmem
    have hrk : r ∈ (freshGPU now st).filter (fun x => decide (latestKey x = latestKey r)) :=
      List.mem_filter.2 ⟨hrf, by simp⟩
    obtain ⟨r0, hr0⟩ := pickLatest_isSome_of_mem hrk
    have hr0mem := (pickLatest_spec _ _ hr0).1
    have hr0key : latestKey r0 = latestKey r := by
      simpa using (List.mem_filter.1 hr0mem).2
    refine ⟨rawRowToMetrics r0, ?_, ?_⟩
    · exact List.mem_map_of_mem _ (List.mem_filterMap.2 ⟨latestKey r, hksort, hr0⟩)
    · rw [← hr0key]
      rfl

/-- Witness for C4: the partition of the fresh ts 40 demo sample is
represented in the view at now = 40. -/
theorem GetLatestGPUMetrics_freshness_witness :
    ∃ m, m ∈ GetLatestGPUMetrics 40 latestDemoStore
      ∧ (m.node_id, m.gpu_id) = latestKey (demoRaw 40 70) :=
  GetLatestGPUMetrics_freshness.2.1 40 latestDemoStore (demoRaw 40 70) (by decide) (by decide)

/-! ### Ingestion -/

attribute [ext] GPUMetrics

/-- The row written by WriteGPUMetrics for one sample: an empty NodeID is
replaced by the sentinel local before the INSERT. -/
def gpuMetricsToRow (m : GPUMetrics) : GPURawRow :=
  { ts := m.ts, node_id := some (if m.node_id = "" then "local" else m.node_id)
    gpu_id := m.gpu_id, gpu_util := m.gpu_util, mem_util := m.mem_util
    mem_used := m.mem_used, temperature := m.temperature, fan_speed := m.fan_speed
    power_draw := m.power_draw, power_limit := m.power_limit, clock_gfx := m.clock_gfx
    clock_mem := m.clock_mem, pcie_tx := m.pcie_tx, pcie_rx := m.pcie_rx
    pstate := m.pstate, encoder_util := m.encoder_util, decoder_util := m.decoder_util }

/-- Outcome of a batched write: the resulting store, whether the call
returned without error, and whether a transaction was begun. -/
structure GPUWriteResult where
  store : Store
  ok : Bool
  txStarted : Bool

/-- WriteGPUMetrics: begin a transaction unconditionally, execute one INSERT
per sample, and commit.  failAt is the statement-failure oracle: failAt i
true means the INSERT of the i-th sample fails, in which case the function
returns the error and the deferred Rollback discards every row of the batch
(all-or-nothing).  Begin, Prepare and Commit failures are not modelled. -/
def WriteGPUMetrics (failAt : Nat → Bool) (metrics : List GPUMetrics) (st : Store) :
    GPUWriteResult :=
  if (List.range metrics.length).any failAt then
    { store := st, ok := false, txStarted := true }
  else
    { store := { st with gpu_metrics_raw := st.gpu_metrics_raw ++ metrics.map gpuMetricsToRow }
      ok := true, txStarted := true }

/-- The collector HostMetrics record. -/
structure HostMetrics where
  ts : Int
  node_id : String
  cpu_percent : Rat
  mem_used : Int
  mem_total : Int
  disk_used : Int
  disk_total : Int
  net_rx : Int
  net_tx : Int
  load_1m : Rat
  load_5m : Rat
  load_15m : Rat
deriving DecidableEq

/-- The row written by WriteHostMetrics: every column, node_id included, is
inserted verbatim (no sentinel normalization in this write path). -/
def hostMetricsToRow (m : HostMetrics) : HostRawRow :=
  { ts := m.ts, node_id := m.node_id, cpu_percent := m.cpu_percent, mem_used := m.mem_used
    mem_total := m.mem_total, disk_used := m.disk_used, disk_total := m.disk_total
    net_rx := m.net_rx, net_tx := m.net_tx, load_1m := m.load_1m, load_5m := m.load_5m
    load_15m := m.load_15m }

/-- WriteHostMetrics: a single INSERT (no transaction); fail is the
statement-failure oracle; the Bool result is success. -/
def WriteHostMetrics (fail : Bool) (m : HostMetrics) (st : Store) : Store × Bool :=
  if fail then (st, false)
  else ({ st with host_metrics_raw := st.host_metrics_raw ++ [hostMetricsToRow m] }, true)

/-- The collector GPUProcess record. -/
structure GPUProcess where
  ts : Int
  node_id : String
  gpu_id : Int
  pid : Int
  name : String
  gpu_mem : Int
deriving DecidableEq

/-- The row written by WriteGPUProcesses for one process: an empty NodeID is
replaced by the sentinel local before the INSERT. -/
def gpuProcessToRow (p : GPUProcess) : GPUProcessRow :=
  { ts := p.ts, node_id := if p.node_id = "" then "local" else p.node_id
    gpu_id := p.gpu_id, pid := p.pid, name := p.name, gpu_mem := p.gpu_mem }

/-- WriteGPUProcesses: returns immediately on an empty batch without starting
a transaction; otherwise a transaction with one INSERT per row, with the same
all-or-nothing failure semantics as WriteGPUMetrics. -/
def WriteGPUProcesses (failAt : Nat → Bool) (procs : List GPUProcess) (st : Store) :
    GPUWriteResult :=
  if procs.length = 0 then { store := st, ok := true, txStarted := false }
  else if (List.range procs.length).any failAt then
    { store := st, ok := false, txStarted := true }
  else
    { store := { st with gpu_processes := st.gpu_processes ++ procs.map gpuProcessToRow }
      ok := true, txStarted := true }

/-- C6 counterexample: WriteGPUMetrics on the empty batch does begin (and
commit) a transaction, unlike what the no-transaction clause claims. -/
theorem WriteGPUMetrics_empty_starts_tx :
    ¬ ((WriteGPUMetrics (fun _ => false) [] emptyStore).txStarted = false) := by
  decide

/-- C6 (amended): writing an empty GPU batch returns success and leaves the
store unchanged, but it does start (and commit) an empty transaction. -/
theorem WriteGPUMetrics_empty_noop (failAt : Nat → Bool) (st : Store) :
    WriteGPUMetrics failAt [] st = { store := st, ok := true, txStarted := true } := by
  unfold WriteGPUMetrics
  have hc : ¬ ((List.range ([] : List GPUMetrics).length).any failAt = true) := by simp
  rw [if_neg hc]
  simp only [List.map_nil, List.append_nil]

/-- C7: if the INSERT of any sample of the batch fails, WriteGPUMetrics
returns an error and persists none of the batch: the store is unchanged. -/
theorem WriteGPUMetrics_atomic (failAt : Nat → Bool) (metrics : List GPUMetrics) (st : Store)
    (h : ∃ i, i < metrics.length ∧ failAt i = true) :
    (WriteGPUMetrics failAt metrics st).ok = false
      ∧ (WriteGPUMetrics failAt metrics st).store = st := by
  obtain ⟨i, hi, hf⟩ := h
  have hc : (List.range metrics.length).any failAt = true := by
    rw [List.any_eq_true]
    exact ⟨i, List.mem_range.2 hi, hf⟩
  unfold WriteGPUMetrics
  rw [if_pos hc]
  exact ⟨rfl, rfl⟩

/-- A GPU sample with a given timestamp and node (other fields fixed). -/
def demoGPUMetrics (ts : Int) (node : String) : GPUMetrics :=
  { ts := ts, node_id := node, gpu_id := 0, gpu_util := 50, mem_util := 40, mem_used := 1000
    temperature := 60, fan_speed := 30, power_draw := 100, power_limit := 200, clock_gfx := 1500
    clock_mem := 7000, pcie_tx := 10, pcie_rx := 20, pstate := 0, encoder_util := 0
    decoder_util := 0 }

/-- Witness for C7: a one-sample batch whose INSERT fails. -/
theorem WriteGPUMetrics_atomic_witness :
    (WriteGPUMetrics (fun i => i == 0) [demoGPUMetrics 5 "n1"] emptyStore).ok = false
      ∧ (WriteGPUMetrics (fun i => i == 0) [demoGPUMetrics 5 "n1"] emptyStore).store
        = emptyStore :=
  WriteGPUMetrics_atomic (fun i => i == 0) [demoGPUMetrics 5 "n1"] emptyStore
    ⟨0, by decide, by decide⟩

/-- A host sample arriving with an empty node_id. -/
def demoHostMetrics : HostMetrics :=
  { ts := 100, node_id := "", cpu_percent := 5, mem_used := 1, mem_total := 2, disk_used := 1
    disk_total := 2, net_rx := 0, net_tx := 0, load_1m := 1, load_5m := 1, load_15m := 1 }

/-- C8 counterexample: WriteHostMetrics stores a host sample with empty
node_id verbatim: the persisted row has node_id empty, not the sentinel. -/
theorem WriteHostMetrics_stores_empty_node :
    ((WriteHostMetrics false demoHostMetrics emptyStore).1.host_metrics_raw.map
      (fun r => r.node_id)) = [""] := by
  decide

/-- C8 (amended): the GPU-metric and process write paths normalize an empty
node_id to the sentinel local at ingestion (every row they add has a
populated, non-empty node), but the host write path stores node_id verbatim,
the empty string included. -/
theorem ingest_node_normalization :
    (∀ (failAt : Nat → Bool) (metrics : List GPUMetrics) (st : Store) r,
        r ∈ (WriteGPUMetrics failAt metrics st).store.gpu_metrics_raw →
        r ∈ st.gpu_metrics_raw ∨ ∃ m, m ∈ metrics ∧ r = gpuMetricsToRow m)
    ∧ (∀ m : GPUMetrics, (gpuMetricsToRow m).node_id ≠ some ""
        ∧ (gpuMetricsToRow m).node_id ≠ none)
    ∧ (∀ (failAt : Nat → Bool) (procs : List GPUProcess) (st : Store) r,
        r ∈ (WriteGPUProcesses failAt procs st).store.gpu_processes →
        r ∈ st.gpu_processes ∨ ∃ p, p ∈ procs ∧ r = gpuProcessToRow p)
    ∧ (∀ p : GPUProcess, (gpuProcessToRow p).node_id ≠ "")
    ∧ (∀ (m : HostMetrics) (st : Store), (WriteHostMetrics false m st).1.host_metrics_raw
        = st.host_metrics_raw ++ [hostMetricsToRow m]
        ∧ (hostMetricsToRow m).node_id = m.node_id) := by
  refine ⟨?_, ?_, ?_, ?_, ?_⟩
  · intro failAt metrics st r hr
    unfold WriteGPUMetrics at hr
    by_cases hc : (List.range metrics.length).any failAt = true
    · rw [if_pos hc] at hr
      exact Or.inl hr
    · rw [if_neg hc] at hr
      rcases List.mem_append.1 hr with h | h
      · exact Or.inl h
      · obtain ⟨m, hm, hme⟩ := List.mem_map.1 h
        exact Or.inr ⟨m, hm, hme.symm⟩
  · intro m
    constructor
    · intro h
      have h' : (if m.node_id = "" then "local" else m.node_id) = "" := Option.some.inj h
      by_cases hm : m.node_id = ""
      · rw [if_pos hm] at h'
        exact absurd h' (by decide)
      · rw [if_neg hm] at h'
        exact hm h'
    · intro h
      exact Option.noConfusion h
  · intro failAt procs st r hr
    unfold WriteGPUProcesses at hr
    by_cases h0 : procs.length = 0
    · rw [if_pos h0] at hr
      exact Or.inl hr
    · rw [if_neg h0] at hr
      by_cases hc : (List.range procs.length).any failAt = true
      · rw [if_pos hc] at hr
        exact Or.inl hr
      · rw [if_neg hc] at hr
        rcases List.mem_append.1 hr with h | h
        · exact Or.inl h
        · obtain ⟨p, hp, hpe⟩ := List.mem_map.1 h
          exact Or.inr ⟨p, hp, hpe.symm⟩
  · intro p h
    by_cases hp : p.node_id = ""
    · have h' : (if p.node_id = "" then "local" else p.node_id) = "" := h
      rw [if_pos hp] at h'
      exact absurd h' (by decide)
    · have h' : (if p.node_id = "" then "local" else p.node_id) = "" := h
      rw [if_neg hp] at h'
      exact hp h'
  · intro m st
    exact ⟨rfl, rfl⟩

/-- Witness for C8 (amended), at a one-sample batch with empty node_id. -/
theorem ingest_node_normalization_witness :
    gpuMetricsToRow (demoGPUMetrics 10 "") ∈ emptyStore.gpu_metrics_raw
      ∨ ∃ m, m ∈ [demoGPUMetrics 10 ""]
        ∧ gpuMetricsToRow (demoGPUMetrics 10 "") = gpuMetricsToRow m :=
  ingest_node_normalization.1 (fun _ => false) [demoGPUMetrics 10 ""] emptyStore
    (gpuMetricsToRow (demoGPUMetrics 10 "")) (by decide)

/-- C5: writing a non-empty batch (one device, one non-empty node) into the
empty store and querying the same device and node over an inclusive range
that covers the batch with span at most 3600 s (so the raw tier is read)
returns exactly the written samples, field for field, in ascending ts
order. -/
theorem write_query_roundtrip (batch : List GPUMetrics) (g : Int) (n : String) (f t : Int)
    (_hne : batch ≠ [])
    (hn : n ≠ "")
    (hall : ∀ m ∈ batch, m.gpu_id = g ∧ m.node_id = n ∧ f ≤ m.ts ∧ m.ts ≤ t)
    (hspan : t - f ≤ 3600) :
    (GetGPUMetrics ⟨g, n, f, t⟩
        (WriteGPUMetrics (fun _ => false) batch emptyStore).store).Perm batch
    ∧ (GetGPUMetrics ⟨g, n, f, t⟩
        (WriteGPUMetrics (fun _ => false) batch emptyStore).store).Pairwise
        (fun a b => a.ts ≤ b.ts) := by
  have hcfail : ¬ ((List.range batch.length).any (fun _ => false) = true) := by simp
  have hwstore : (WriteGPUMetrics (fun _ => false) batch emptyStore).store.gpu_metrics_raw
      = batch.map gpuMetricsToRow := by
    unfold WriteGPUMetrics
    rw [if_neg hcfail]
    exact List.nil_append _
  have hsel : selectResolution (t - f) = "gpu_metrics_raw" := by
    unfold selectResolution
    rw [if_pos hspan]
  have hnode : ∀ m ∈ batch, (gpuMetricsToRow m).node_id = some n := by
    intro m hm
    have h := (hall m hm).2.1
    show some (if m.node_id = "" then "local" else m.node_id) = some n
    rw [h, if_neg hn]
  have hfilter : (batch.map gpuMetricsToRow).filter (fun r =>
      decide ((n = "" ∨ r.node_id = some n) ∧ r.gpu_id = g ∧ f ≤ r.ts ∧ r.ts ≤ t))
      = batch.map gpuMetricsToRow := by
    rw [List.filter_eq_self]
    intro a ha
    obtain ⟨m, hm, rfl⟩ := List.mem_map.1 ha
    obtain ⟨hg, _, hf, ht⟩ := hall m hm
    simp only [decide_eq_true_eq]
    exact ⟨Or.inr (hnode m hm), hg, hf, ht⟩
  have hid : ∀ m ∈ batch, rawRowToMetrics (gpuMetricsToRow m) = m := by
    intro m hm
    have h := (hall m hm).2.1
    apply GPUMetrics.ext
    all_goals try rfl
    show (some (if m.node_id = "" then "local" else m.node_id)).getD "local" = m.node_id
    rw [h, if_neg hn]
    rfl
  have hquery : GetGPUMetrics ⟨g, n, f, t⟩ (WriteGPUMetrics (fun _ => false) batch emptyStore).store
      = (List.insertionSort tsLe (batch.map gpuMetricsToRow)).map rawRowToMetrics := by
    unfold GetGPUMetrics
    rw [hwstore]
    show (if selectResolution (t - f) = "gpu_metrics_raw" then _ else _) = _
    rw [hsel, if_pos rfl, hfilter]
  constructor
  · rw [hquery]
    have h1 : List.Perm ((List.insertionSort tsLe (batch.map gpuMetricsToRow)).map rawRowToMetrics)
        ((batch.map gpuMetricsToRow).map rawRowToMetrics) :=
      (List.perm_insertionSort tsLe _).map rawRowToMetrics
    have h2 : (batch.map gpuMetricsToRow).map rawRowToMetrics = batch := by
      rw [List.map_map]
      have h3 : List.map (rawRowToMetrics ∘ gpuMetricsToRow) batch = List.map id batch :=
        List.map_congr_left (fun a ha => hid a ha)
      rw [h3, List.map_id]
    rw [h2] at h1
    exact h1
  · rw [hquery]
    exact (List.sorted_insertionSort tsLe _).map rawRowToMetrics (fun a b h => h)

/-- Witness for C5: a two-sample batch written at ts 20 and ts 10 and read
back over the range 10 to 20. -/
theorem write_query_roundtrip_witness :
    ([demoGPUMetrics 20 "n1", demoGPUMetrics 10 "n1"] ≠ ([] : List GPUMetrics))
    ∧ ((GetGPUMetrics ⟨0, "n1", 10, 20⟩
        (WriteGPUMetrics (fun _ => false) [demoGPUMetrics 20 "n1", demoGPUMetrics 10 "n1"]
          emptyStore).store).Perm [demoGPUMetrics 20 "n1", demoGPUMetrics 10 "n1"]
      ∧ (GetGPUMetrics ⟨0, "n1", 10, 20⟩
        (WriteGPUMetrics (fun _ => false) [demoGPUMetrics 20 "n1", demoGPUMetrics 10 "n1"]
          emptyStore).store).Pairwise (fun a b => a.ts ≤ b.ts)) :=
  ⟨by decide,
    write_query_roundtrip [demoGPUMetrics 20 "n1", demoGPUMetrics 10 "n1"] 0 "n1" 10 20
      (by decide) (by decide) (by decide) (by decide)⟩

/-! ### Alert evaluator -/

/-- Alert thresholds from the configuration: temperature, GPU utilization
and memory utilization; a value of 0 means disabled. -/
structure AlertThresholds where
  temp : Int
  gpuUtil : Rat
  memUtil : Rat

/-- The metric a threshold alert fires on. -/
inductive AlertMetric
  | temp
  | gpuUtil
  | memUtil
deriving DecidableEq

/-- An alert record: node, device, metric kind, observed value, threshold. -/
structure Alert where
  node_id : String
  gpu_id : Int
  metric : AlertMetric
  value : Rat
  threshold : Rat
deriving DecidableEq

/-- Modelled from the spec: the alert evaluator (its source file is not part
of the excerpted repository sources).  For each configured threshold
(0 = disabled) and each sample at or above it, emit one alert record. -/
def evaluateAlerts (th : AlertThresholds) (samples : List GPUMetrics) : List Alert :=
  samples.foldr (fun m acc =>
    (if th.temp ≠ 0 ∧ (th.temp : Rat) ≤ (m.temperature : Rat) then
      [{ node_id := m.node_id, gpu_id := m.gpu_id, metric := AlertMetric.temp
         value := (m.temperature : Rat), threshold := (th.temp : Rat) }] else [])
    ++ (if th.gpuUtil ≠ 0 ∧ th.gpuUtil ≤ m.gpu_util then
      [{ node_id := m.node_id, gpu_id := m.gpu_id, metric := AlertMetric.gpuUtil
         value := m.gpu_util, threshold := th.gpuUtil }] else [])
    ++ (if th.memUtil ≠ 0 ∧ th.memUtil ≤ m.mem_util then
      [{ node_id := m.node_id, gpu_id := m.gpu_id, metric := AlertMetric.memUtil
         value := m.mem_util, threshold := th.memUtil }] else [])
    ++ acc) []

/-- Modelled from the spec: one alert evaluation step over the active set.
When every threshold is disabled the evaluation is skipped and the active
set is left untouched; otherwise the evaluation output replaces the active
set wholesale. -/
def applyAlertEvaluation (th : AlertThresholds) (samples : List GPUMetrics)
    (active : List Alert) : List Alert :=
  if th.temp = 0 ∧ th.gpuUtil = 0 ∧ th.memUtil = 0 then active
  else evaluateAlerts th samples

/-- The sample of the C9 scenario: device 0 on node n1 at a given
temperature. -/
def alertSample (temp : Int) : GPUMetrics :=
  { ts := 0, node_id := "n1", gpu_id := 0, gpu_util := 10, mem_util := 10, mem_used := 100
    temperature := temp, fan_speed := 30, power_draw := 100, power_limit := 200
    clock_gfx := 1500, clock_mem := 7000, pcie_tx := 10, pcie_rx := 20, pstate := 0
    encoder_util := 0, decoder_util := 0 }

/-- The temperature-only threshold configuration of the C9 scenario. -/
def tempOnly80 : AlertThresholds := { temp := 80, gpuUtil := 0, memUtil := 0 }

/-- C9: with thresholds temp 80 (others disabled), evaluating over a sample
at temperature 85 yields exactly one alert; a subsequent evaluation over a
sample at temperature 60 yields zero active alerts; and whenever any
threshold is enabled, the evaluation result replaces the previous active
set wholesale (it does not depend on it). -/
theorem alert_replace_semantics :
    applyAlertEvaluation tempOnly80 [alertSample 85] []
      = [{ node_id := "n1", gpu_id := 0, metric := AlertMetric.temp, value := 85
           threshold := 80 }]
    ∧ applyAlertEvaluation tempOnly80 [alertSample 60]
        (applyAlertEvaluation tempOnly80 [alertSample 85] []) = []
    ∧ (∀ th samples active active',
        ¬ (th.temp = 0 ∧ th.gpuUtil = 0 ∧ th.memUtil = 0) →
        applyAlertEvaluation th samples active = applyAlertEvaluation th samples active') := by
  refine ⟨by decide, by decide, ?_⟩
  intro th samples active active' h
  unfold applyAlertEvaluation
  rw [if_neg h, if_neg h]

/-- Witness for the C9 replacement clause at the demo thresholds. -/
theorem alert_replace_semantics_witness :
    applyAlertEvaluation tempOnly80 [alertSample 60]
        [{ node_id := "n1", gpu_id := 0, metric := AlertMetric.temp, value := 85
           threshold := 80 }]
      = applyAlertEvaluation tempOnly80 [alertSample 60] [] :=
  alert_replace_semantics.2.2 tempOnly80 [alertSample 60] _ _ (by decide)

/-- C5 counterexample: for a one-sample batch whose node_id is empty, the
write normalizes the node to the sentinel local, so querying the same
gpu_id and node_id (the empty string, which the query treats as the
all-nodes wildcard) returns a row whose node_id field is local: the result
is not, field for field, the written batch. -/
theorem write_query_roundtrip_counterexample :
    ¬ (GetGPUMetrics ⟨0, "", 10, 10⟩
        (WriteGPUMetrics (fun _ => false) [demoGPUMetrics 10 ""] emptyStore).store).Perm
        [demoGPUMetrics 10 ""] := by
  intro h
  have hm : demoGPUMetrics 10 "" ∈ GetGPUMetrics ⟨0, "", 10, 10⟩
      (WriteGPUMetrics (fun _ => false) [demoGPUMetrics 10 ""] emptyStore).store :=
    h.mem_iff.2 (by decide)
  exact absurd hm (by decide)
